import Mathlib

/-!
Verification of the Identity & Access Control core of the enterprise express
webserver (services/sysUserService.js, middleware/auth/jwtAuth.js,
utils/redis.js, models/sysUser.js, models/user.js, utils/database.js).

The JavaScript code is embedded shallowly: JSON values become the inductive
`JVal`; the Redis cache becomes a list of keyed entries with absolute expiry
timestamps; JavaScript exceptions become an explicit `JsError` sum threaded
through `Except`; `try/catch` blocks become `match` on that sum.  Timestamps
are integers (milliseconds since the epoch, as produced by `Date.now()`);
JWT `exp` claims are in seconds, as in the source.  `JSON.parse ∘
JSON.stringify = id` is used to store structured values in the cache model;
the serialization itself (`encodeJ`) is only ever inspected for string
truthiness, matching the one place the source reads a raw serialized value.
-/

/-- JSON-like runtime values: the payloads stored in the cache and the user
objects crossing the service boundary. -/
inductive JVal where
  | s (v : String)
  | n (v : Int)
  | b (v : Bool)
  | null
  | arr (vs : List JVal)
  | obj (fields : List (String × JVal))

mutual

/-- `JSON.stringify` on a `JVal` (escaping elided; the result is only ever
tested for truthiness as a string, never re-parsed in the model). -/
def encodeJ : JVal → String
  | .s v => "\"" ++ v ++ "\""
  | .n v => toString v
  | .b true => "true"
  | .b false => "false"
  | .null => "null"
  | .arr vs => "[" ++ encodeArr vs ++ "]"
  | .obj fs => "\x7b" ++ encodeObj fs ++ "\x7d"

def encodeArr : List JVal → String
  | [] => ""
  | [v] => encodeJ v
  | v :: vs => encodeJ v ++ "," ++ encodeArr vs

def encodeObj : List (String × JVal) → String
  | [] => ""
  | [(k, v)] => "\"" ++ k ++ "\":" ++ encodeJ v
  | (k, v) :: fs => "\"" ++ k ++ "\":" ++ encodeJ v ++ "," ++ encodeObj fs

end

mutual

/-- Strict equality on JSON values (JavaScript `===` restricted to the
primitive cases the sources compare; arrays/objects compare structurally,
which is only used for membership of string literals in arrays). -/
def JVal.beq : JVal → JVal → Bool
  | .s x, .s y => x == y
  | .n x, .n y => x == y
  | .b x, .b y => x == y
  | .null, .null => true
  | .arr x, .arr y => JVal.beqArr x y
  | .obj x, .obj y => JVal.beqObj x y
  | _, _ => false

def JVal.beqArr : List JVal → List JVal → Bool
  | [], [] => true
  | x :: xs, y :: ys => JVal.beq x y && JVal.beqArr xs ys
  | _, _ => false

def JVal.beqObj : List (String × JVal) → List (String × JVal) → Bool
  | [], [] => true
  | (kx, vx) :: xs, (ky, vy) :: ys => kx == ky && JVal.beq vx vy && JVal.beqObj xs ys
  | _, _ => false

end

instance : BEq JVal := ⟨JVal.beq⟩

/-- JavaScript truthiness of a value (`if (cachedUser) ...`). -/
def jsTruthyJ : JVal → Bool
  | .s v => v ≠ ""
  | .n v => v ≠ 0
  | .b v => v
  | .null => false
  | .arr _ => true
  | .obj _ => true

/-- JavaScript truthiness of a possibly-absent string
(`authHeader || ...`, `if (perm.perms)`): `undefined`/`null` and the empty
string are falsy. -/
def jsTruthyStr : Option String → Bool
  | some v => v ≠ ""
  | none => false

/-- HTTP status codes used by the error taxonomy.  Modelled from the spec:
the constants module `src/constants/statusCodes` is not among the provided
sources; these are the standard numbers the routes' swagger comments
document (400/401/403/404/409/500). -/
def statusCodes.BAD_REQUEST : Nat := 400

def statusCodes.UNAUTHORIZED : Nat := 401

def statusCodes.FORBIDDEN : Nat := 403

def statusCodes.NOT_FOUND : Nat := 404

def statusCodes.CONFLICT : Nat := 409

def statusCodes.INTERNAL_SERVER_ERROR : Nat := 500

/-- `ApiError` of middleware/generic/errorHandler.js: a typed domain error
with HTTP status, human message, and stable machine-readable code. -/
structure ApiErr where
  statusCode : Nat
  message : String
  code : String
  deriving Repr, DecidableEq

/-- JavaScript exceptions that can travel through a `try/catch` in the
embedded code: typed `ApiError`s, the cache collaborator being unavailable,
a rejected Redis command, the credential store being unavailable, the two
named errors of the `jsonwebtoken` library, and a `TypeError` (calling a
property that is not a function). -/
inductive JsError where
  | api (e : ApiErr)
  | cacheUnavailable
  | redisCommand (msg : String)
  | storeUnavailable
  | typeError (msg : String)
  | tokenExpiredName
  | jsonWebTokenName
  deriving Repr, DecidableEq

/-- Cache TTLs (seconds).  Modelled from the spec: the constants module
`src/constants/business` is not among the provided sources; the spec only
distinguishes a medium and a long duration plus a one-day fallback, so the
values are representative (the claims checked never depend on them). -/
def CACHE_TTL.MEDIUM : Int := 1800

def CACHE_TTL.LONG : Int := 3600

def CACHE_TTL.DAY : Int := 86400

/-- Modelled from the spec: cache keys use a user-profile string namespace
(`CACHE_PREFIXES.USER` of the absent constants module). -/
def CACHE_PREFIXES.USER : String := "user:"

/-- One stored cache entry: key, structured value, and absolute expiry in
milliseconds (`none` = no TTL, the entry never self-expires). -/
structure CacheEntry where
  key : String
  val : JVal
  expiresAt : Option Int

/-- The cache collaborator: its stored entries plus an availability flag
(`up = false` models Redis being unreachable, in which case every raw
command rejects). -/
structure Cache where
  up : Bool
  entries : List CacheEntry

/-- An entry is still alive at time `now` (Redis drops it once the TTL has
elapsed). -/
def entryLive (now : Int) (e : CacheEntry) : Bool :=
  match e.expiresAt with
  | none => true
  | some t => now < t

/-- Raw keyed lookup among the live entries. -/
def cacheLookup (now : Int) (c : Cache) (key : String) : Option JVal :=
  ((c.entries.filter (entryLive now)).find? (fun e => e.key == key)).map (·.val)

/-- Raw store of a value under a key (replacing any previous entry). -/
def cacheStore (c : Cache) (key : String) (v : JVal) (expiresAt : Option Int) : Cache :=
  { c with entries := ⟨key, v, expiresAt⟩ :: c.entries.filter (fun e => e.key ≠ key) }

/-- Raw removal of a key. -/
def cacheErase (c : Cache) (key : String) : Cache :=
  { c with entries := c.entries.filter (fun e => e.key ≠ key) }

/-- The raw ioredis `client.get`, as used directly (without the wrapper) by
jwtAuth.js line 35: returns the serialized string, rejects when the cache is
unavailable. -/
def redisRawGet (now : Int) (c : Cache) (key : String) : Except JsError (Option String) :=
  if c.up then .ok ((cacheLookup now c key).map encodeJ) else .error .cacheUnavailable

/-- `RedisClient.get` (utils/redis.js lines 93-102): raw get plus
`JSON.parse`, with every failure caught and converted to `null`.  The
parse of the stored serialization is the stored structured value itself. -/
def RedisClient.get (now : Int) (c : Cache) (key : String) : Option JVal :=
  if c.up then cacheLookup now c key else none

/-- The raw `client.setex`/`client.set` pair selected by `if (ttl)`
(utils/redis.js lines 111-120): `ttl = 0` is falsy so the value is stored
with no expiry; a negative `ttl` makes `setex` reject; unavailable cache
rejects. -/
def redisRawSet (now : Int) (c : Cache) (key : String) (v : JVal) (ttl : Int) :
    Except JsError Cache :=
  if ¬ c.up then .error .cacheUnavailable
  else if ttl = 0 then .ok (cacheStore c key v none)
  else if 0 < ttl then .ok (cacheStore c key v (some (now + ttl * 1000)))
  else .error (.redisCommand "invalid expire time in setex")

/-- `RedisClient.set` (utils/redis.js lines 111-125): raw set with every
failure caught, returning `false` and leaving the cache as it was. -/
def RedisClient.set (now : Int) (c : Cache) (key : String) (v : JVal) (ttl : Int) :
    Bool × Cache :=
  match redisRawSet now c key v ttl with
  | .ok c' => (true, c')
  | .error _ => (false, c)

/-- The raw `client.del`. -/
def redisRawDel (c : Cache) (key : String) : Except JsError Cache :=
  if c.up then .ok (cacheErase c key) else .error .cacheUnavailable

/-- `RedisClient.del` (utils/redis.js lines 132-141): raw del with every
failure caught, returning `false` and leaving the cache as it was. -/
def RedisClient.del (c : Cache) (key : String) : Bool × Cache :=
  match redisRawDel c key with
  | .ok c' => (true, c')
  | .error _ => (false, c)

/-- A row of the `sys_user` table (models/sysUser.js), restricted to the
columns the verified operations read or write.  `status`: 1 = normal,
2 = frozen; `del_flag`: 0 = live, 1 = soft-deleted; `update_time` in
milliseconds. -/
structure SysUser where
  id : String
  username : Option String
  email : Option String
  phone : Option String
  realname : Option String
  password : Option String
  salt : Option String
  avatar : Option String
  status : Option Int
  del_flag : Option Int
  update_time : Option Int
  deriving Repr, DecidableEq

/-- A row of `sys_role` (models/sysRole.js, provided via database.js). -/
structure SysRole where
  id : String
  role_code : String
  role_name : Option String
  tenant_id : Option Int
  deriving Repr, DecidableEq

/-- A row of `sys_permission` (models/sysPermission.js), restricted to the
columns permission resolution reads: `perms` is the permission code,
`status` is '1' when valid, `del_flag` 0 when not soft-deleted. -/
structure SysPermission where
  id : String
  name : Option String
  perms : Option String
  status : Option String
  del_flag : Option Int
  deriving Repr, DecidableEq

/-- The credential store: the tables behind the Sequelize models wired by
database.js `initModels`, plus an availability flag (`up = false` models
the store rejecting with `StoreUnavailable`).  `userRoles` and
`rolePermissions` are the `sys_user_role` / `sys_role_permission`
many-to-many join rows as (user_id, role_id) / (role_id, permission_id). -/
structure Store where
  up : Bool
  users : List SysUser
  roles : List SysRole
  permissions : List SysPermission
  userRoles : List (String × String)
  rolePermissions : List (String × String)
  deriving Repr, DecidableEq

/-- The full mutable world threaded through the service calls. -/
structure SysState where
  store : Store
  cache : Cache

/-- models/sysUser.js `User.prototype.isLocked` (lines 234-236): the wired
user model reports locked exactly when `status === 2` (frozen). -/
def SysUser.isLocked (u : SysUser) : Bool :=
  u.status == some 2

/-- models/sysUser.js `User.prototype.updateLoginTime` (lines 225-228): the
wired user model only refreshes `update_time`. -/
def SysUser.updateLoginTime (u : SysUser) (now : Int) : SysUser :=
  { u with update_time := some now }

/-- The unwired legacy user model of models/user.js, restricted to its
lockout-relevant columns (`failedLoginAttempts`, `lockUntil`,
`lastLogin`). -/
structure LegacyUser where
  id : String
  failedLoginAttempts : Int
  lockUntil : Option Int
  lastLogin : Option Int
  deriving Repr, DecidableEq

/-- models/user.js `User.prototype.updateLoginTime` (lines 155-160): resets
the failed-attempt counter and clears the lock expiry. -/
def LegacyUser.updateLoginTime (u : LegacyUser) (now : Int) : LegacyUser :=
  { u with lastLogin := some now, failedLoginAttempts := 0, lockUntil := none }

/-- models/user.js `User.prototype.incrementFailedLogins` (lines 166-178):
increments the counter and, at the threshold of 5, locks for 30 minutes. -/
def LegacyUser.incrementFailedLogins (u : LegacyUser) (now : Int) : LegacyUser :=
  let u' := { u with failedLoginAttempts := u.failedLoginAttempts + 1 }
  if 5 ≤ u'.failedLoginAttempts then
    { u' with lockUntil := some (now + 30 * 60 * 1000) }
  else u'

/-- models/user.js `User.prototype.isLocked` (lines 184-186): locked while
`lockUntil` is set and still in the future. -/
def LegacyUser.isLocked (u : LegacyUser) (now : Int) : Bool :=
  match u.lockUntil with
  | some t => now < t
  | none => false

/-- Which `User` model a database connection registers.  database.js
`initModels` (line 177) requires `../models/sysUser`, so every connection's
`sequelize.models.User` — the model `SysUserService.getUserModel` returns —
is the sys_user model; the models/user.js lockout machinery is never
wired. -/
inductive UserModelKind where
  | sysUser
  | legacy
  deriving Repr, DecidableEq

def wiredUserModel : UserModelKind := .sysUser

def optStrJ : Option String → JVal
  | some v => .s v
  | none => .null

def optIntJ : Option Int → JVal
  | some v => .n v
  | none => .null

/-- `toJSON` of a sys_permission row. -/
def SysPermission.toJSON (p : SysPermission) : JVal :=
  .obj [("id", .s p.id), ("name", optStrJ p.name), ("perms", optStrJ p.perms),
        ("status", optStrJ p.status), ("del_flag", optIntJ p.del_flag)]

/-- `toJSON` of a sys_role row together with its included (filtered)
permissions, as produced by the login query's nested `include`. -/
def roleJSON (r : SysRole) (ps : List SysPermission) : JVal :=
  .obj [("id", .s r.id), ("role_code", .s r.role_code),
        ("role_name", optStrJ r.role_name), ("tenant_id", optIntJ r.tenant_id),
        ("permissions", .arr (ps.map SysPermission.toJSON))]

/-- `toJSON` of a sys_user row: every column, the stored credential hash and
salt included. -/
def SysUser.toJSONFields (u : SysUser) : List (String × JVal) :=
  [("id", .s u.id), ("username", optStrJ u.username), ("email", optStrJ u.email),
   ("phone", optStrJ u.phone), ("realname", optStrJ u.realname),
   ("password", optStrJ u.password), ("salt", optStrJ u.salt),
   ("avatar", optStrJ u.avatar), ("status", optIntJ u.status),
   ("del_flag", optIntJ u.del_flag), ("update_time", optIntJ u.update_time)]

/-- The three credential/reset fields that must never cross the boundary. -/
def sensitiveFields : List String :=
  ["password", "passwordResetToken", "passwordResetExpires"]

/-- Drop the fields named in `bad` from an object's field list (the rest
destructuring of `sanitizeUser`, the `attributes: exclude` of the queries,
and the protected-field deletion of `updateUser`). -/
def removeFields (bad : List String) (fs : List (String × JVal)) : List (String × JVal) :=
  fs.filter (fun kv => ¬ bad.contains kv.1)

/-- `SysUserService.sanitizeUser` (lines 561-564): removes `password`,
`passwordResetToken` and `passwordResetExpires` by rest destructuring. -/
def sanitizeUser (fs : List (String × JVal)) : List (String × JVal) :=
  removeFields sensitiveFields fs

/-- `attributes: exclude [...]` used by `getUsers` (line 281) and
`getUserById` (line 321): the same three fields, removed by the query. -/
def excludeSecrets (fs : List (String × JVal)) : List (String × JVal) :=
  removeFields sensitiveFields fs

/-- The claim set `generateToken` signs (lines 571-581).  `roles` holds the
values of `user.roles` — the Role instances included by the login query —
and `tenantId` the value of `user.tenantId`, a column the wired sys_user
model does not have (hence absent). -/
structure TokenPayload where
  id : String
  username : Option String
  email : Option String
  roles : List JVal
  tenantId : Option String
  exp : Option Int

def TokenPayload.toJSON (p : TokenPayload) : JVal :=
  .obj [("id", .s p.id), ("username", optStrJ p.username),
        ("email", optStrJ p.email), ("roles", .arr p.roles),
        ("tenantId", optStrJ p.tenantId), ("exp", optIntJ p.exp)]

/-- A bearer token as the middleware sees it: its compact serialization
(`raw`, the blacklist key suffix), the embedded claims, whether it parses as
a JWT at all, and whether its signature verifies against the configured
secret. -/
structure Jwt where
  raw : String
  payload : TokenPayload
  wellFormed : Bool
  sigValid : Bool

/-- config/development.js line 85: `expiresIn: '1d'`. -/
def config.jwt.expiresInSecs : Int := 86400

/-- `jsonwebtoken.verify`: unparseable input or a bad signature raises
`JsonWebTokenError`; an `exp` at or before the current clock (in seconds)
raises `TokenExpiredError`; otherwise the decoded claims are returned. -/
def jwtVerify (t : Jwt) (now : Int) : Except JsError TokenPayload :=
  if ¬ (t.wellFormed && t.sigValid) then .error .jsonWebTokenName
  else
    match t.payload.exp with
    | some e => if e ≤ Int.fdiv now 1000 then .error .tokenExpiredName else .ok t.payload
    | none => .ok t.payload

/-- `jsonwebtoken.decode`: returns the claims without checking the
signature, `null` when the input does not parse. -/
def jwtDecode (t : Jwt) : Option TokenPayload :=
  if t.wellFormed then some t.payload else none

/-- `jsonwebtoken.sign`: a fresh, well-formed, well-signed token. -/
def jwtSign (p : TokenPayload) : Jwt :=
  ⟨encodeJ p.toJSON, p, true, true⟩

def invalidCredentialsErr : ApiErr :=
  ⟨statusCodes.UNAUTHORIZED, "用户名或密码不正确", "AUTH_INVALID_CREDENTIALS"⟩

def accountInactiveErr : ApiErr :=
  ⟨statusCodes.FORBIDDEN, "账户未激活或已被禁用", "AUTH_ACCOUNT_INACTIVE"⟩

def accountLockedErr : ApiErr :=
  ⟨statusCodes.FORBIDDEN, "账户已被锁定，请联系管理员", "AUTH_ACCOUNT_LOCKED"⟩

def loginFailedErr : ApiErr :=
  ⟨statusCodes.INTERNAL_SERVER_ERROR, "登录过程中发生错误", "AUTH_LOGIN_FAILED"⟩

def tokenMissingErr : ApiErr :=
  ⟨statusCodes.UNAUTHORIZED, "未提供认证令牌", "AUTH_TOKEN_MISSING"⟩

def tokenRevokedErr : ApiErr :=
  ⟨statusCodes.UNAUTHORIZED, "令牌已失效，请重新登录", "AUTH_TOKEN_REVOKED"⟩

def tokenExpiredErr : ApiErr :=
  ⟨statusCodes.UNAUTHORIZED, "认证令牌已过期", "AUTH_TOKEN_EXPIRED"⟩

def tokenInvalidErr : ApiErr :=
  ⟨statusCodes.UNAUTHORIZED, "无效的认证令牌", "AUTH_INVALID_TOKEN"⟩

def authSystemErr : ApiErr :=
  ⟨statusCodes.INTERNAL_SERVER_ERROR, "认证过程发生错误", "AUTH_SYSTEM_ERROR"⟩

def authRequiredErr : ApiErr :=
  ⟨statusCodes.UNAUTHORIZED, "需要认证", "AUTH_REQUIRED"⟩

def tenantDeniedErr : ApiErr :=
  ⟨statusCodes.FORBIDDEN, "无权访问此租户的数据", "AUTH_TENANT_ACCESS_DENIED"⟩

def userNotFoundErr : ApiErr :=
  ⟨statusCodes.NOT_FOUND, "用户不存在", "USER_NOT_FOUND"⟩

def userDetailsFailedErr : ApiErr :=
  ⟨statusCodes.INTERNAL_SERVER_ERROR, "获取用户详情失败", "USER_DETAILS_FAILED"⟩

def userUpdateFailedErr : ApiErr :=
  ⟨statusCodes.INTERNAL_SERVER_ERROR, "更新用户信息失败", "USER_UPDATE_FAILED"⟩

def userListFailedErr : ApiErr :=
  ⟨statusCodes.INTERNAL_SERVER_ERROR, "获取用户列表失败", "USER_LIST_FAILED"⟩

def userDeleteFailedErr : ApiErr :=
  ⟨statusCodes.INTERNAL_SERVER_ERROR, "删除用户失败", "USER_DELETE_FAILED"⟩

def usernameExistsErr : ApiErr :=
  ⟨statusCodes.CONFLICT, "用户名已存在", "USER_USERNAME_EXISTS"⟩

def emailExistsErr : ApiErr :=
  ⟨statusCodes.CONFLICT, "邮箱已存在", "USER_EMAIL_EXISTS"⟩

def registrationFailedErr : ApiErr :=
  ⟨statusCodes.INTERNAL_SERVER_ERROR, "用户注册失败", "USER_REGISTRATION_FAILED"⟩

/-- The login query (`User.findOne`, lines 107-131): first user whose
username or email equals the identifier and whose `del_flag` is 0. -/
def findLoginUser (st : Store) (username : String) : Option SysUser :=
  st.users.find? (fun u =>
    (u.username == some username || u.email == some username) && u.del_flag == some 0)

/-- The roles the login query's `include` attaches: every role joined to the
user through sys_user_role (the include has no filter on roles). -/
def rolesOfUser (st : Store) (uid : String) : List SysRole :=
  st.roles.filter (fun r => st.userRoles.contains (uid, r.id))

/-- The permissions the nested `include` attaches to one role: joined
through sys_role_permission and filtered by `del_flag: 0, status: '1'`
(`required: false`, so a role keeps an empty list). -/
def validPermsOfRole (st : Store) (rid : String) : List SysPermission :=
  st.permissions.filter (fun p =>
    st.rolePermissions.contains (rid, p.id) && p.del_flag == some 0 && p.status == some "1")

/-- The full association the login query loads for a user. -/
def loadRoles (st : Store) (uid : String) : List (SysRole × List SysPermission) :=
  (rolesOfUser st uid).map (fun r => (r, validPermsOfRole st r.id))

/-- One step of the permission-code extraction (login lines 169-173):
`if (perm.perms && !perms.includes(perm.perms)) perms.push(perm.perms)`. -/
def pushPerm (acc : List String) (p : SysPermission) : List String :=
  match p.perms with
  | some code => if code ≠ "" && ¬ acc.contains code then acc ++ [code] else acc
  | none => acc

/-- The nested loop over `user.roles`/`role.permissions` (login lines
164-176) collecting the deduplicated permission codes. -/
def extractPerms (lrs : List (SysRole × List SysPermission)) : List String :=
  lrs.foldl (fun acc lr => lr.2.foldl pushPerm acc) []

/-- `SysUserService.generateToken` (lines 571-581): signs `{id, username,
email, roles, tenantId}` with `expiresIn` from the config.  `user.roles` are
the included Role instances (serialized with their filtered permissions);
`user.tenantId` does not exist on the sys_user model, so the claim is
absent. -/
def generateToken (u : SysUser) (lrs : List (SysRole × List SysPermission)) (now : Int) : Jwt :=
  jwtSign
    { id := u.id, username := u.username, email := u.email,
      roles := lrs.map (fun lr => roleJSON lr.1 lr.2),
      tenantId := none,
      exp := some (Int.fdiv now 1000 + config.jwt.expiresInSecs) }

/-- Persist a mutated user instance (`user.save()`): replace the row with
the same primary key. -/
def saveUser (st : Store) (u : SysUser) : Store :=
  { st with users := st.users.map (fun v => if v.id = u.id then u else v) }

/-- What `login` resolves to on success: the sanitized, permission-enriched
user object that was also cached, and the signed token. -/
structure LoginOk where
  user : List (String × JVal)
  token : Jwt

/-- `SysUserService.login` (lines 100-198).  `bcompare` is
`bcrypt.compare(candidate, storedHash)` of the external bcryptjs library.
Branches in source order: store failure wrapped as `AUTH_LOGIN_FAILED` by
the catch; no user → `AUTH_INVALID_CREDENTIALS`; `status !== 1` →
`AUTH_ACCOUNT_INACTIVE`; `isLocked()` → `AUTH_ACCOUNT_LOCKED`; password
mismatch → `AUTH_INVALID_CREDENTIALS` (with no store write of any kind);
otherwise `updateLoginTime`, token, permission extraction, cache write of
the pre-stringified sanitized user under the user key, success. -/
def login (username password : String) (bcompare : String → Option String → Bool)
    (now : Int) (st : SysState) : Except ApiErr LoginOk × SysState :=
  if ¬ st.store.up then (.error loginFailedErr, st)
  else
    match findLoginUser st.store username with
    | none => (.error invalidCredentialsErr, st)
    | some u =>
      if u.status ≠ some 1 then (.error accountInactiveErr, st)
      else if u.isLocked then (.error accountLockedErr, st)
      else if ¬ bcompare password u.password then (.error invalidCredentialsErr, st)
      else
        let u' := u.updateLoginTime now
        let st1 : SysState := { st with store := saveUser st.store u' }
        let lrs := loadRoles st.store u.id
        let token := generateToken u' lrs now
        let perms := extractPerms lrs
        let userCache := sanitizeUser (u'.toJSONFields ++
          [("roles", .arr (lrs.map (fun lr => roleJSON lr.1 lr.2))),
           ("permissions", .arr (perms.map JVal.s))])
        let setRes := RedisClient.set now st1.cache (CACHE_PREFIXES.USER ++ u.id)
          (.s (encodeJ (.obj userCache))) CACHE_TTL.LONG
        (.ok ⟨userCache, token⟩, { st1 with cache := setRes.2 })

/-- `SysUserService.getTokenExpiry` (lines 588-595): decode without
verifying; `decoded && decoded.exp` is truthy only for a nonzero `exp`;
scaled to milliseconds. -/
def getTokenExpiry (t : Jwt) : Option Int :=
  match jwtDecode t with
  | some p =>
    match p.exp with
    | some e => if e ≠ 0 then some (e * 1000) else none
    | none => none
  | none => none

/-- The body of `SysUserService.logout` (lines 206-230), before its
catch-all: blacklist the token with TTL `Math.floor((expiry − now)/1000)`
(falling back to a day when the token carries no expiry), then, when a user
with an id was supplied: load the row (`findByPk`, throwing when the store
is down), stamp `update_time` and save, then call `redisClient.delete` —
a method the Redis wrapper does not define, so a `TypeError` is thrown
before the audit log; without a user the body resolves `true`. -/
def logoutBody (t : Jwt) (user : Option TokenPayload) (now : Int) (st : SysState) :
    Except JsError Bool × SysState :=
  let expiryTime : Int :=
    match getTokenExpiry t with
    | some e => Int.fdiv (e - now) 1000
    | none => CACHE_TTL.DAY
  let setRes := RedisClient.set now st.cache ("blacklist:" ++ t.raw) (.s "true") expiryTime
  let st1 : SysState := { st with cache := setRes.2 }
  match user with
  | some uu =>
    if uu.id ≠ "" then
      if ¬ st1.store.up then (.error .storeUnavailable, st1)
      else
        let st2 : SysState :=
          match st1.store.users.find? (fun v => v.id == uu.id) with
          | some um => { st1 with store := saveUser st1.store { um with update_time := some now } }
          | none => st1
        (.error (.typeError "redisClient.delete is not a function"), st2)
    else (.ok true, st1)
  | none => (.ok true, st1)

/-- `SysUserService.logout`: the body wrapped in its catch-all — any thrown
error is logged and converted to `false`; mutations already performed
persist. -/
def logout (t : Jwt) (user : Option TokenPayload) (now : Int) (st : SysState) :
    Bool × SysState :=
  match logoutBody t user now st with
  | (.ok r, st') => (r, st')
  | (.error _, st') => (false, st')

/-- An HTTP response at the boundary: a success JSON body or an error
response produced by the error-handling middleware. -/
inductive HttpResp where
  | okJson (message : String)
  | fail (e : ApiErr)

/-- routes/api/auth.js `POST /auth/logout` (lines 224-240): awaits the
service logout — whose result is ignored — and always responds success;
`asyncHandler` would forward only a rejection. -/
def logoutRoute (t : Jwt) (user : Option TokenPayload) (now : Int) (st : SysState) :
    HttpResp × SysState :=
  let r := logout t user now st
  (.okJson "注销成功", r.2)

/-- The inner `try` of `authenticate` (jwtAuth.js lines 31-51):
`jwt.verify`, then the revocation-blacklist lookup through the RAW redis
client (`Redis.client.get`, line 35 — not the error-swallowing wrapper),
then the revoked check; the inner catch renames the two jsonwebtoken errors
and rethrows everything else. -/
def authInner (t : Jwt) (now : Int) (c : Cache) : Except JsError TokenPayload :=
  let body : Except JsError TokenPayload :=
    match jwtVerify t now with
    | .error e => .error e
    | .ok decoded =>
      match redisRawGet now c ("blacklist:" ++ t.raw) with
      | .error e => .error e
      | .ok blk =>
        if jsTruthyStr blk then .error (.api tokenRevokedErr) else .ok decoded
  match body with
  | .error .tokenExpiredName => .error (.api tokenExpiredErr)
  | .error .jsonWebTokenName => .error (.api tokenInvalidErr)
  | r => r

/-- `authenticate` (jwtAuth.js lines 14-62).  The bearer-header string
plumbing is collapsed into the `Option Jwt` argument (`none` = no usable
token in the header).  The outer catch forwards `ApiError`s and wraps
anything else — including a cache failure from the raw blacklist lookup —
as `AUTH_SYSTEM_ERROR`. -/
def authenticate (tok : Option Jwt) (now : Int) (c : Cache) : Except ApiErr TokenPayload :=
  let body : Except JsError TokenPayload :=
    match tok with
    | none => .error (.api tokenMissingErr)
    | some t => authInner t now c
  match body with
  | .ok p => .ok p
  | .error (.api e) => .error e
  | .error _ => .error authSystemErr

/-- `tenantAccess` (jwtAuth.js lines 99-129): no authenticated user → 401;
an identity whose `roles` array contains the string 'admin' passes;
otherwise the requested tenant id (falsy, or different from the identity's
`tenantId`) → `AUTH_TENANT_ACCESS_DENIED`.  The middleware consults no
store: the decision is independent of any target resource. -/
def tenantAccess (user : Option TokenPayload) (requested : Option String) :
    Except ApiErr Unit :=
  match user with
  | none => .error authRequiredErr
  | some uu =>
    if (uu.roles.contains (JVal.s "admin") : Bool) then .ok ()
    else if ¬ jsTruthyStr requested ∨ requested ≠ uu.tenantId then .error tenantDeniedErr
    else .ok ()

/-- The store branch of `getUserById` (lines 317-332): `findByPk` with
`attributes: exclude` (store failure wrapped as `USER_DETAILS_FAILED` by the
catch), `USER_NOT_FOUND` when absent, else cache the excluded-attribute
JSON with the medium TTL and return it. -/
def getUserByIdFromStore (id : String) (now : Int) (st : SysState) :
    Except ApiErr JVal × SysState :=
  if ¬ st.store.up then (.error userDetailsFailedErr, st)
  else
    match st.store.users.find? (fun u => u.id == id) with
    | none => (.error userNotFoundErr, st)
    | some u =>
      let userJson : JVal := .obj (excludeSecrets u.toJSONFields)
      let setRes := RedisClient.set now st.cache (CACHE_PREFIXES.USER ++ id) userJson
        CACHE_TTL.MEDIUM
      (.ok userJson, { st with cache := setRes.2 })

/-- `SysUserService.getUserById` (lines 308-341): a truthy cached value
under the user key is returned as-is; otherwise the store branch runs. -/
def getUserById (id : String) (now : Int) (st : SysState) :
    Except ApiErr JVal × SysState :=
  match RedisClient.get now st.cache (CACHE_PREFIXES.USER ++ id) with
  | some v => if jsTruthyJ v then (.ok v, st) else getUserByIdFromStore id now st
  | none => getUserByIdFromStore id now st

/-- `updateUser`'s protected fields (line 363), deleted from the incoming
data before the update. -/
def protectedFields : List String :=
  ["id", "password", "passwordResetToken", "passwordResetExpires"]

def asOptStr : JVal → Option String
  | .s v => some v
  | _ => none

def asOptInt : JVal → Option Int
  | .n v => some v
  | _ => none

/-- `user.update(userData)`: assign each supplied value to the column of the
same name; keys that are not attributes of the wired sys_user model are
ignored by Sequelize. -/
def setUserField (u : SysUser) (kv : String × JVal) : SysUser :=
  match kv.1 with
  | "username" => { u with username := asOptStr kv.2 }
  | "email" => { u with email := asOptStr kv.2 }
  | "phone" => { u with phone := asOptStr kv.2 }
  | "realname" => { u with realname := asOptStr kv.2 }
  | "avatar" => { u with avatar := asOptStr kv.2 }
  | "salt" => { u with salt := asOptStr kv.2 }
  | "password" => { u with password := asOptStr kv.2 }
  | "status" => { u with status := asOptInt kv.2 }
  | "del_flag" => { u with del_flag := asOptInt kv.2 }
  | "update_time" => { u with update_time := asOptInt kv.2 }
  | _ => u

def applyUpdate (u : SysUser) (data : List (String × JVal)) : SysUser :=
  data.foldl setUserField u

/-- `SysUserService.updateUser` (lines 350-388): inside one transaction —
find the user (`USER_NOT_FOUND` when absent), strip the protected fields,
apply the update, delete the user's snapshot cache key, return the
sanitized JSON.  A store failure is wrapped as `USER_UPDATE_FAILED`. -/
def updateUser (id : String) (userData : List (String × JVal)) (st : SysState) :
    Except ApiErr (List (String × JVal)) × SysState :=
  if ¬ st.store.up then (.error userUpdateFailedErr, st)
  else
    match st.store.users.find? (fun u => u.id == id) with
    | none => (.error userNotFoundErr, st)
    | some u =>
      let data := removeFields protectedFields userData
      let u' := applyUpdate u data
      let st1 : SysState := { st with store := saveUser st.store u' }
      let delRes := RedisClient.del st1.cache (CACHE_PREFIXES.USER ++ id)
      (.ok (sanitizeUser u'.toJSONFields), { st1 with cache := delRes.2 })

/-- `SysUserService.deleteUser` (lines 523-554): find, `user.destroy()` — a
hard row delete, the sys_user model not being paranoid — then delete the
snapshot cache key, then success. -/
def deleteUser (id : String) (st : SysState) : Except ApiErr Bool × SysState :=
  if ¬ st.store.up then (.error userDeleteFailedErr, st)
  else
    match st.store.users.find? (fun u => u.id == id) with
    | none => (.error userNotFoundErr, st)
    | some _ =>
      let st1 : SysState :=
        { st with store := { st.store with users := st.store.users.filter (fun u => u.id ≠ id) } }
      let delRes := RedisClient.del st1.cache (CACHE_PREFIXES.USER ++ id)
      (.ok true, { st1 with cache := delRes.2 })

/-- `SysUserService.getUsers` (lines 243-300): `findAndCountAll` with
`attributes: exclude` applied to every returned row.  The query's
where/order/pagination options (built over columns of the legacy user
model) are abstracted as the row-selection predicate `q`; the properties
verified here depend only on the attribute exclusion, which applies to
whatever rows the query selects. -/
def getUsers (q : SysUser → Bool) (st : SysState) :
    Except ApiErr (List (List (String × JVal))) × SysState :=
  if ¬ st.store.up then (.error userListFailedErr, st)
  else (.ok ((st.store.users.filter q).map (fun u => excludeSecrets u.toJSONFields)), st)

/-- Modelled from the spec: `USER_STATUS.ACTIVE` of the absent constants
module, as the wired model stores it (1 = normal). -/
def USER_STATUS_ACTIVE : Int := 1

/-- The body fields `register` receives from the route. -/
structure RegisterData where
  id : String
  username : String
  email : String
  password : String
  phone : Option String
  realname : Option String

/-- `SysUserService.register` (lines 40-91): duplicate check on username or
email (409 with the matching code), then create the user — the `beforeSave`
hook hashes the changed password with a salt generated when absent (`bhash`
stands for that bcrypt hash; the generated salt value itself is irrelevant
to the verified properties) — and return the sanitized JSON. -/
def register (d : RegisterData) (bhash : String → String) (st : SysState) :
    Except ApiErr (List (String × JVal)) × SysState :=
  if ¬ st.store.up then (.error registrationFailedErr, st)
  else
    match st.store.users.find? (fun u =>
        u.username == some d.username || u.email == some d.email) with
    | some existing =>
      if existing.username == some d.username then (.error usernameExistsErr, st)
      else (.error emailExistsErr, st)
    | none =>
      let newUser : SysUser :=
        { id := d.id, username := some d.username, email := some d.email,
          phone := d.phone, realname := d.realname,
          password := some (bhash d.password), salt := some "",
          avatar := none, status := some USER_STATUS_ACTIVE,
          del_flag := some 0, update_time := none }
      let st1 : SysState :=
        { st with store := { st.store with users := st.store.users ++ [newUser] } }
      (.ok (sanitizeUser newUser.toJSONFields), st1)

/-- No field of the object is one of the credential/reset fields. -/
def fieldsClean (fs : List (String × JVal)) : Bool :=
  fs.all (fun kv => ¬ sensitiveFields.contains kv.1)

/-- A boundary value is clean: an object with no sensitive field, or a
non-object value (which has no fields at all). -/
def valClean : JVal → Bool
  | .obj fs => fieldsClean fs
  | _ => true

/-- Cache hygiene: every entry stored under the user-snapshot namespace
holds a clean value.  (Blacklist and lock keys are unconstrained.) -/
def cacheClean (c : Cache) : Prop :=
  ∀ e ∈ c.entries, (∃ uid, e.key = CACHE_PREFIXES.USER ++ uid) → valClean e.val = true

/-- `n` consecutive login attempts with the same identifier and password,
threading the state. -/
def iterateLogin (username password : String) (bcompare : String → Option String → Bool)
    (now : Int) : Nat → SysState → SysState
  | 0, st => st
  |
    nn + 1, st => iterateLogin username password bcompare now nn
      (login username password bcompare now st).2

/-- A concrete stand-in for the external bcrypt hash/compare pair used by
the closed evaluations below. -/
def bhash0 (pw : String) : String := "h!" ++ pw

def bc0 (candidate : String) (stored : Option String) : Bool :=
  stored == some (bhash0 candidate)

def now0 : Int := 1000000

def alice : SysUser :=
  { id := "u1", username := some "alice", email := some "alice@example.com",
    phone := none, realname := none, password := some (bhash0 "Correct1!"),
    salt := some "s1", avatar := none, status := some 1, del_flag := some 0,
    update_time := none }

def store0 : Store :=
  { up := true, users := [alice], roles := [], permissions := [],
    userRoles := [], rolePermissions := [] }

def cache0 : Cache := { up := true, entries := [] }

def st0 : SysState := { store := store0, cache := cache0 }

def cacheDown : Cache := { up := false, entries := [] }

def payload0 : TokenPayload :=
  { id := "u1", username := some "alice", email := some "alice@example.com",
    roles := [], tenantId := none, exp := some 2000000 }

/-- A well-signed token for `payload0`, expiring (in seconds) far after
`now0` (milliseconds). -/
def tok0 : Jwt := jwtSign payload0

/-- A well-signed token whose `exp` (1000 s) is exactly `now0 = 1000000` ms:
its remaining lifetime at `now0` is zero. -/
def tokE : Jwt := jwtSign { payload0 with exp := some 1000 }

/-- A state whose cache holds a user snapshot for `u1`, as left by a
previous login. -/
def stC5 : SysState :=
  { store := store0,
    cache := { up := true,
               entries := [⟨"user:u1", .obj [("id", .s "u1")], some (now0 + 3600000)⟩] } }

def permA : SysPermission :=
  { id := "p1", name := none, perms := some "A", status := some "1", del_flag := some 0 }

def permB : SysPermission :=
  { id := "p2", name := none, perms := some "B", status := some "1", del_flag := some 0 }

def permC : SysPermission :=
  { id := "p3", name := none, perms := some "C", status := some "1", del_flag := some 0 }

def roleR1 : SysRole := { id := "r1", role_code := "R1", role_name := none, tenant_id := some 0 }

def roleR2 : SysRole := { id := "r2", role_code := "R2", role_name := none, tenant_id := some 0 }

/-- A store where user u1 holds roles R1 = {A,B} and R2 = {B,C}. -/
def store7 : Store :=
  { up := true, users := [alice], roles := [roleR1, roleR2],
    permissions := [permA, permB, permC],
    userRoles := [("u1", "r1"), ("u1", "r2")],
    rolePermissions := [("r1", "p1"), ("r1", "p2"), ("r2", "p2"), ("r2", "p3")] }

def uAdmin : TokenPayload :=
  { id := "a1", username := some "root", email := none,
    roles := [JVal.s "admin"], tenantId := none, exp := none }

def uMember : TokenPayload :=
  { id := "m1", username := some "member", email := none,
    roles := [JVal.s "user"], tenantId := some "t1", exp := none }

/-- A state whose cache holds a (clean) snapshot under the user namespace,
for the C9 witness. -/
def stW : SysState :=
  { store := store0,
    cache := { up := true, entries := [⟨"user:u9", .obj [("id", .s "u9")], none⟩] } }

theorem fieldsClean_removeFields (fs : List (String × JVal)) :
    fieldsClean (removeFields sensitiveFields fs) = true := by
  simp only [fieldsClean, removeFields, List.all_eq_true, List.mem_filter, decide_eq_true_eq]
  intro kv h
  exact h.2

theorem cacheStore_up (c : Cache) (k : String) (v : JVal) (t : Option Int) :
    (cacheStore c k v t).up = c.up := rfl

theorem cacheLookup_store_live (c : Cache) (k : String) (v : JVal) (expT now : Int)
    (h : now < expT) :
    cacheLookup now (cacheStore c k v (some expT)) k = some v := by
  simp [cacheLookup, cacheStore, entryLive, List.filter_cons, h, List.find?_cons]

/-- Claim C1.  The claimed lockout state machine never engages: the wired
sys_user model has no failed-attempt counter and `login` performs no store
write on a failed attempt, so five consecutive failed logins leave the
state exactly unchanged and a sixth attempt with the correct password
succeeds instead of failing with `AccountLocked`. -/
theorem c1_lockout_never_engaged :
    (login "alice" "Wr0ng!" bc0 now0 st0).1 = .error invalidCredentialsErr ∧
    (login "alice" "Wr0ng!" bc0 now0 st0).2 = st0 ∧
    iterateLogin "alice" "Wr0ng!" bc0 now0 5 st0 = st0 ∧
    (login "alice" "Correct1!" bc0 now0
      (iterateLogin "alice" "Wr0ng!" bc0 now0 5 st0)).1.isOk = true :=
  ⟨rfl, rfl, rfl, rfl⟩

/-- Claim C2.  The `RedisClient` wrapper does swallow every cache failure
(get → null, set/del → false), but `authenticate` performs its
revocation-blacklist lookup through the raw client: with the cache layer
down, that raw get rejects with `CacheUnavailable` and `authenticate` on a
valid, unexpired, unrevoked token surfaces `AUTH_SYSTEM_ERROR` instead of
falling back — the same call succeeds when the cache is up. -/
theorem c2_blacklist_lookup_surfaces_cache_failure :
    RedisClient.get now0 cacheDown "user:u1" = none ∧
    RedisClient.set now0 cacheDown "user:u1" (.s "v") 60 = (false, cacheDown) ∧
    RedisClient.del cacheDown "user:u1" = (false, cacheDown) ∧
    redisRawGet now0 cacheDown ("blacklist:" ++ tok0.raw) = .error .cacheUnavailable ∧
    authenticate (some tok0) now0 cacheDown = .error authSystemErr ∧
    (authenticate (some tok0) now0 cache0).isOk = true :=
  ⟨rfl, rfl, rfl, rfl, rfl, rfl⟩

/-- Claim C3.  A successful login resets nothing: database.js wires the
sys_user model, whose `updateLoginTime` only refreshes `update_time`, so
after a successful login the stored row differs from the old one exactly in
`update_time`; the reset of `failedLoginAttempts`/`lockUntil` exists only
in the unwired models/user.js `updateLoginTime`. -/
theorem c3_login_resets_nothing :
    wiredUserModel = .sysUser ∧
    (login "alice" "Correct1!" bc0 now0 st0).2.store.users =
      [{ alice with update_time := some now0 }] ∧
    SysUser.updateLoginTime alice now0 = { alice with update_time := some now0 } ∧
    LegacyUser.updateLoginTime ⟨"u1", 3, some (now0 + 100000), none⟩ now0 =
      ⟨"u1", 0, none, some now0⟩ :=
  ⟨rfl, rfl, rfl, rfl⟩

/-- Claim C5.  Profile update and user deletion do delete the user's
snapshot key before reporting success, but logout does not: it calls
`redisClient.delete`, a method the wrapper does not define, so the thrown
`TypeError` is swallowed, the snapshot stays in the cache, logout resolves
`false` — and the boundary route still reports success. -/
theorem c5_logout_leaves_snapshot_cached :
    (logout tok0 (some payload0) now0 stC5).1 = false ∧
    cacheLookup now0 (logout tok0 (some payload0) now0 stC5).2.cache "user:u1" =
      some (.obj [("id", .s "u1")]) ∧
    (logoutRoute tok0 (some payload0) now0 stC5).1 = .okJson "注销成功" ∧
    cacheLookup now0 (updateUser "u1" [("realname", JVal.s "A")] stC5).2.cache "user:u1" =
      none ∧
    cacheLookup now0 (deleteUser "u1" stC5).2.cache "user:u1" = none :=
  ⟨rfl, rfl, rfl, rfl, rfl⟩

/-- Claim C6.  An identifier matching no non-deleted user and an identifier
matching an active, unlocked user whose stored hash rejects the password
produce the very same `ApiError` value — status, message and machine code
`AUTH_INVALID_CREDENTIALS` all identical. -/
theorem c6_invalid_credentials_indistinguishable
    (st : SysState) (idA pwA idB pwB : String)
    (bcompare : String → Option String → Bool) (now : Int) (u : SysUser)
    (hup : st.store.up = true)
    (hA : findLoginUser st.store idA = none)
    (hB : findLoginUser st.store idB = some u)
    (hstatus : u.status = some 1)
    (hlock : u.isLocked = false)
    (hpw : bcompare pwB u.password = false) :
    (login idA pwA bcompare now st).1 = .error invalidCredentialsErr ∧
    (login idB pwB bcompare now st).1 = .error invalidCredentialsErr := by
  constructor
  · simp [login, hup, hA]
  · simp [login, hup, hB, hstatus, hlock, hpw]

theorem c6_invalid_credentials_indistinguishable_witness :
    (login "nobody" "x" bc0 now0 st0).1 = .error invalidCredentialsErr ∧
    (login "alice" "Wr0ng!" bc0 now0 st0).1 = .error invalidCredentialsErr :=
  c6_invalid_credentials_indistinguishable st0 "nobody" "x" "alice" "Wr0ng!" bc0 now0 alice
    rfl rfl rfl rfl rfl rfl

/-- Claim C8.  Tenant access: an identity whose roles contain 'admin'
always passes; a non-administrative identity requesting any tenant id
different from its own always gets `AUTH_TENANT_ACCESS_DENIED` — the
middleware consults no resource, so the outcome is independent of whether
the target exists. -/
theorem c8_tenant_access_check (u : TokenPayload) (requested : Option String) :
    (u.roles.contains (JVal.s "admin") = true →
      tenantAccess (some u) requested = .ok ()) ∧
    (u.roles.contains (JVal.s "admin") = false → requested ≠ u.tenantId →
      tenantAccess (some u) requested = .error tenantDeniedErr) := by
  constructor
  · intro h
    simp [tenantAccess, h]
  · intro h hne
    simp [tenantAccess, h, hne]

theorem c8_tenant_access_check_witness :
    tenantAccess (some uAdmin) (some "t9") = .ok () ∧
    tenantAccess (some uMember) (some "t9") = .error tenantDeniedErr :=
  ⟨(c8_tenant_access_check uAdmin (some "t9")).1 rfl,
   (c8_tenant_access_check uMember (some "t9")).2 rfl (by decide)⟩

/-- Claim C10.  Logout is total and best-effort: the boundary route always
responds success once the request authenticated, and whenever the logout
body raises internally (blacklist write, store access, the broken cache
delete) the catch-all resolves `false` instead of rejecting. -/
theorem c10_logout_total_best_effort :
    (∀ t user now st, (logoutRoute t user now st).1 = .okJson "注销成功") ∧
    (∀ t user now st e st', logoutBody t user now st = (.error e, st') →
      logout t user now st = (false, st')) := by
  constructor
  · intro t user now st
    rfl
  · intro t user now st e st' h
    simp [logout, h]

theorem c10_logout_total_best_effort_witness :
    (logoutRoute tok0 (some payload0) now0 st0).1 = .okJson "注销成功" ∧
    logout tok0 (some payload0) now0 st0 =
      (false, (logoutBody tok0 (some payload0) now0 st0).2) :=
  ⟨c10_logout_total_best_effort.1 tok0 (some payload0) now0 st0,
   c10_logout_total_best_effort.2 tok0 (some payload0) now0 st0
     (.typeError "redisClient.delete is not a function")
     ((logoutBody tok0 (some payload0) now0 st0).2) rfl⟩

/-- Claim C4 counterexample.  A token whose remaining lifetime at
revocation time is zero (exp = 1000 s, now = 1000000 ms, so the natural
expiry is exactly now): `Math.floor((exp·1000 − now)/1000) = 0` is falsy,
so the wrapper stores the blacklist entry with NO expiry — the entry is
still live about 31.7 years after the token's natural expiry, refuting
"expires from the cache no later than the token's natural expiry and not
indefinitely after". -/
theorem c4_zero_ttl_blacklist_entry_never_expires :
    getTokenExpiry tokE = some 1000000 ∧
    (logout tokE none 1000000 st0).1 = true ∧
    cacheLookup (1000000 + 999999999999) (logout tokE none 1000000 st0).2.cache
      ("blacklist:" ++ tokE.raw) = some (.s "true") :=
  ⟨rfl, rfl, rfl⟩

/-- Claim C4 as amended.  With a positive computed TTL
`⌊(exp·1000 − now)/1000⌋`, revocation stores the blacklist entry with
exactly that TTL, which expires no later than the token's natural expiry,
and every verification of the well-signed, still-unexpired token while the
entry is live fails with `TokenRevoked`; with a negative computed TTL
(token expired by a second or more) the cache write fails, is swallowed,
and revocation still resolves successfully with the state unchanged.  (At a
computed TTL of exactly zero the entry is instead stored without expiry —
the counterexample above.) -/
theorem c4_revocation_ttl_amended :
    (∀ (t : Jwt) (e now : Int) (st : SysState),
      t.wellFormed = true → t.payload.exp = some e → e ≠ 0 →
      st.cache.up = true → 0 < Int.fdiv (e * 1000 - now) 1000 →
      (logout t none now st).1 = true ∧
      (logout t none now st).2.cache =
        cacheStore st.cache ("blacklist:" ++ t.raw) (.s "true")
          (some (now + Int.fdiv (e * 1000 - now) 1000 * 1000)) ∧
      now + Int.fdiv (e * 1000 - now) 1000 * 1000 ≤ e * 1000 ∧
      (∀ now', t.sigValid = true → Int.fdiv now' 1000 < e →
        now' < now + Int.fdiv (e * 1000 - now) 1000 * 1000 →
        authenticate (some t) now' (logout t none now st).2.cache =
          .error tokenRevokedErr)) ∧
    (∀ (t : Jwt) (e now : Int) (st : SysState),
      t.wellFormed = true → t.payload.exp = some e → e ≠ 0 →
      Int.fdiv (e * 1000 - now) 1000 < 0 →
      logout t none now st = (true, st)) := by
  constructor
  · intro t e now st hwf hexp hne hup hpos
    have hq0 : Int.fdiv (e * 1000 - now) 1000 ≠ 0 := ne_of_gt hpos
    have hlog : logout t none now st =
        (true, { st with cache := (cacheStore st.cache ("blacklist:" ++ t.raw) (.s "true")
          (some (now + Int.fdiv (e * 1000 - now) 1000 * 1000))) }) := by
      simp [logout, logoutBody, getTokenExpiry, jwtDecode, hwf, hexp, hne,
        RedisClient.set, redisRawSet, hup, hq0, hpos]
    have hbnd : Int.fdiv (e * 1000 - now) 1000 * 1000 ≤ e * 1000 - now := by
      rw [Int.fdiv_eq_ediv _ (by norm_num)]
      exact Int.ediv_mul_le _ (by norm_num)
    refine ⟨by rw [hlog], by rw [hlog], by linarith, ?_⟩
    intro now' hsig hnotexp hlive
    have hnl : ¬ (e ≤ Int.fdiv now' 1000) := not_le.mpr hnotexp
    have hlook : cacheLookup now'
        (cacheStore st.cache ("blacklist:" ++ t.raw) (.s "true")
          (some (now + Int.fdiv (e * 1000 - now) 1000 * 1000)))
        ("blacklist:" ++ t.raw) = some (.s "true") :=
      cacheLookup_store_live _ _ _ _ _ hlive
    rw [hlog]
    simp [authenticate, authInner, jwtVerify, hwf, hsig, hexp, hnl,
      redisRawGet, cacheStore_up, hup, hlook, jsTruthyStr, encodeJ]
  · intro t e now st hwf hexp hne hneg
    have h1 : Int.fdiv (e * 1000 - now) 1000 ≠ 0 := ne_of_lt hneg
    have h2 : ¬ (0 < Int.fdiv (e * 1000 - now) 1000) := not_lt.mpr (le_of_lt hneg)
    by_cases hcup : st.cache.up
    · simp [logout, logoutBody, getTokenExpiry, jwtDecode, hwf, hexp, hne,
        RedisClient.set, redisRawSet, hcup, h1, h2]
    · simp [logout, logoutBody, getTokenExpiry, jwtDecode, hwf, hexp, hne,
        RedisClient.set, redisRawSet, hcup, h1, h2]

theorem c4_revocation_ttl_amended_witness :
    (logout tok0 none now0 st0).1 = true ∧
    now0 + Int.fdiv (2000000 * 1000 - now0) 1000 * 1000 ≤ 2000000 * 1000 ∧
    authenticate (some tok0) 1500000 (logout tok0 none now0 st0).2.cache =
      .error tokenRevokedErr ∧
    logout tokE none 2000000 st0 = (true, st0) := by
  have h1 := c4_revocation_ttl_amended.1 tok0 2000000 now0 st0 rfl rfl
    (by decide) rfl (by decide)
  exact ⟨h1.1, h1.2.2.1, h1.2.2.2 1500000 rfl (by decide) (by decide),
    c4_revocation_ttl_amended.2 tokE 1000 2000000 st0 rfl rfl (by decide) (by decide)⟩
theorem mem_pushPerm (acc : List String) (p : SysPermission) (x : String) :
    x ∈ pushPerm acc p ↔ x ∈ acc ∨ (x ≠ "" ∧ p.perms = some x) := by
  unfold pushPerm
  rcases hp : p.perms with _ | code
  · simp
  · simp only [Option.some.injEq]
    by_cases h1 : code = ""
    · simp [h1]
      intro hx he
      exact absurd he.symm hx
    · by_cases h2 : code ∈ acc
      · simp [h1, h2]
        intro _ he
        exact he ▸ h2
      · simp [h1, h2]
        constructor
        · rintro (h | h)
          · exact Or.inl h
          · exact Or.inr ⟨by rw [h]; exact h1, h.symm⟩
        · rintro (h | ⟨hx, hc⟩)
          · exact Or.inl h
          · exact Or.inr hc.symm

theorem pushPerm_nodup (acc : List String) (p : SysPermission) (h : acc.Nodup) :
    (pushPerm acc p).Nodup := by
  rcases hp : p.perms with _ | code
  · simp [pushPerm, hp, h]
  · simp only [pushPerm, hp]
    split
    next hif =>
      simp at hif
      simp [List.nodup_append, h, hif.2]
    next => exact h

theorem mem_foldl_pushPerm (ps : List SysPermission) (acc : List String) (x : String) :
    x ∈ ps.foldl pushPerm acc ↔ x ∈ acc ∨ (x ≠ "" ∧ ∃ p ∈ ps, p.perms = some x) := by
  induction ps generalizing acc with
  | nil => simp
  | cons p ps ih =>
    simp only [List.foldl_cons, ih, mem_pushPerm, List.mem_cons]
    constructor
    · rintro ((h | ⟨hx, hp⟩) | ⟨hx, q, hq, hqx⟩)
      · exact Or.inl h
      · exact Or.inr ⟨hx, p, Or.inl rfl, hp⟩
      · exact Or.inr ⟨hx, q, Or.inr hq, hqx⟩
    · rintro (h | ⟨hx, q, (hq | hq), hqx⟩)
      · exact Or.inl (Or.inl h)
      · exact Or.inl (Or.inr ⟨hx, hq ▸ hqx⟩)
      · exact Or.inr ⟨hx, q, hq, hqx⟩

theorem nodup_foldl_pushPerm (ps : List SysPermission) (acc : List String)
    (h : acc.Nodup) : (ps.foldl pushPerm acc).Nodup := by
  induction ps generalizing acc with
  | nil => exact h
  | cons p ps ih => exact ih _ (pushPerm_nodup acc p h)

theorem mem_foldl_roles (lrs : List (SysRole × List SysPermission)) (acc : List String)
    (x : String) :
    x ∈ lrs.foldl (fun acc lr => lr.2.foldl pushPerm acc) acc ↔
      x ∈ acc ∨ (x ≠ "" ∧ ∃ lr ∈ lrs, ∃ p ∈ lr.2, p.perms = some x) := by
  induction lrs generalizing acc with
  | nil => simp
  | cons lr lrs ih =>
    simp only [List.foldl_cons, ih, mem_foldl_pushPerm, List.mem_cons]
    constructor
    · rintro ((h | ⟨hx, q, hq, hqx⟩) | ⟨hx, m, hm, q, hq, hqx⟩)
      · exact Or.inl h
      · exact Or.inr ⟨hx, lr, Or.inl rfl, q, hq, hqx⟩
      · exact Or.inr ⟨hx, m, Or.inr hm, q, hq, hqx⟩
    · rintro (h | ⟨hx, m, (hm | hm), q, hq, hqx⟩)
      · exact Or.inl (Or.inl h)
      · exact Or.inl (Or.inr ⟨hx, q, hm ▸ hq, hqx⟩)
      · exact Or.inr ⟨hx, m, hm, q, hq, hqx⟩

theorem nodup_foldl_roles (lrs : List (SysRole × List SysPermission)) (acc : List String)
    (h : acc.Nodup) :
    (lrs.foldl (fun acc lr => lr.2.foldl pushPerm acc) acc).Nodup := by
  induction lrs generalizing acc with
  | nil => exact h
  | cons lr lrs ih => exact ih _ (nodup_foldl_pushPerm _ _ h)

theorem mem_extractPerms (lrs : List (SysRole × List SysPermission)) (x : String) :
    x ∈ extractPerms lrs ↔ x ≠ "" ∧ ∃ lr ∈ lrs, ∃ p ∈ lr.2, p.perms = some x := by
  simp [extractPerms, mem_foldl_roles]

/-- Claim C7.  The permission codes `login` extracts are duplicate-free,
and a code is extracted exactly when it is the nonempty `perms` code of
SOME permission that is joined to SOME role of the user, not soft-deleted
(`del_flag = 0`) and valid (`status = '1'`) — i.e. the deduplicated union
over the user's roles of their valid permission codes.  On the concrete
store where u1 holds R1 = {A,B} and R2 = {B,C}, resolution yields exactly
["A", "B", "C"]. -/
theorem c7_permission_resolution_dedup_union :
    (∀ lrs, (extractPerms lrs).Nodup) ∧
    (∀ st uid x, x ∈ extractPerms (loadRoles st uid) ↔
      x ≠ "" ∧ ∃ r, (r ∈ st.roles ∧ (uid, r.id) ∈ st.userRoles) ∧
        ∃ p, (p ∈ st.permissions ∧ (r.id, p.id) ∈ st.rolePermissions ∧
          p.del_flag = some 0 ∧ p.status = some "1") ∧ p.perms = some x) ∧
    extractPerms (loadRoles store7 "u1") = ["A", "B", "C"] := by
  refine ⟨fun lrs => nodup_foldl_roles lrs [] List.nodup_nil, ?_, rfl⟩
  intro st uid x
  rw [mem_extractPerms]
  simp only [loadRoles, List.mem_map, rolesOfUser, validPermsOfRole, List.mem_filter,
    Bool.and_eq_true, beq_iff_eq, List.elem_iff, List.contains]
  constructor
  · rintro ⟨hx, lr, ⟨r, hr, rfl⟩, p, hp, hpx⟩
    obtain ⟨hpm, hcond⟩ := List.mem_filter.mp hp
    simp only [Bool.and_eq_true, beq_iff_eq, List.elem_iff, List.contains] at hcond
    exact ⟨hx, r, hr, p, ⟨hpm, hcond.1.1, hcond.1.2, hcond.2⟩, hpx⟩
  · rintro ⟨hx, r, hr, p, ⟨hpm, hrp, hdel, hst⟩, hpx⟩
    refine ⟨hx, (r, _), ⟨r, hr, rfl⟩, p, ?_, hpx⟩
    rw [List.mem_filter]
    refine ⟨hpm, ?_⟩
    simp only [Bool.and_eq_true, beq_iff_eq, List.elem_iff, List.contains]
    exact ⟨⟨hrp, hdel⟩, hst⟩

theorem redisGet_clean (now : Int) (c : Cache) (id : String) (v : JVal)
    (hclean : cacheClean c)
    (h : RedisClient.get now c (CACHE_PREFIXES.USER ++ id) = some v) :
    valClean v = true := by
  unfold RedisClient.get at h
  split at h
  · unfold cacheLookup at h
    cases hf : (c.entries.filter (entryLive now)).find?
        (fun e => e.key == CACHE_PREFIXES.USER ++ id) with
    | none => rw [hf] at h; simp at h
    | some en =>
      rw [hf] at h
      simp only [Option.map_some', Option.some.injEq] at h
      have hmem : en ∈ c.entries := List.mem_of_mem_filter (List.mem_of_find?_eq_some hf)
      have hkey : en.key = CACHE_PREFIXES.USER ++ id := by
        have hb := List.find?_some hf
        simpa using hb
      have := hclean en hmem ⟨id, hkey⟩
      rw [← h]
      exact this
  · simp at h

theorem getUserByIdFromStore_clean (id : String) (now : Int) (st : SysState) (v : JVal)
    (st' : SysState) (h : getUserByIdFromStore id now st = (.ok v, st')) :
    valClean v = true := by
  unfold getUserByIdFromStore at h
  split at h
  · simp at h
  · split at h
    · simp at h
    · simp only [Prod.mk.injEq, Except.ok.injEq] at h
      rw [← h.1]
      exact fieldsClean_removeFields _

/-- Claim C9.  No operation lets the credential hash or password-reset
material cross the boundary: whatever a successful `register`, `login`,
`getUsers`, `getUserById` (store path or cache-hit path, provided the
user-namespace cache is hygienic) or `updateUser` returns carries none of
the fields `password`, `passwordResetToken`, `passwordResetExpires`. -/
theorem c9_no_sensitive_fields_returned :
    (∀ d bh st out st', register d bh st = (.ok out, st') →
      fieldsClean out = true) ∧
    (∀ un pw bc now st out st', login un pw bc now st = (.ok out, st') →
      fieldsClean out.user = true) ∧
    (∀ q st rows st', getUsers q st = (.ok rows, st') →
      ∀ row ∈ rows, fieldsClean row = true) ∧
    (∀ id now st v st', cacheClean st.cache → getUserById id now st = (.ok v, st') →
      valClean v = true) ∧
    (∀ id data st out st', updateUser id data st = (.ok out, st') →
      fieldsClean out = true) := by
  refine ⟨?_, ?_, ?_, ?_, ?_⟩
  · intro d bh st out st' h
    unfold register at h
    split at h
    · simp at h
    · split at h
      · split at h <;> simp at h
      · simp only [Prod.mk.injEq, Except.ok.injEq] at h
        rw [← h.1]
        exact fieldsClean_removeFields _
  · intro un pw bc now st out st' h
    unfold login at h
    split at h
    · simp at h
    · split at h
      · simp at h
      · split at h
        · simp at h
        · split at h
          · simp at h
          · split at h
            · simp at h
            · simp only [Prod.mk.injEq, Except.ok.injEq] at h
              rw [← h.1]
              exact fieldsClean_removeFields _
  · intro q st rows st' h
    unfold getUsers at h
    split at h
    · simp at h
    · simp only [Prod.mk.injEq, Except.ok.injEq] at h
      intro row hrow
      rw [← h.1] at hrow
      obtain ⟨u, _, rfl⟩ := List.mem_map.mp hrow
      exact fieldsClean_removeFields _
  · intro id now st v st' hclean h
    unfold getUserById at h
    cases hg : RedisClient.get now st.cache (CACHE_PREFIXES.USER ++ id) with
    | none =>
      rw [hg] at h
      exact getUserByIdFromStore_clean id now st v st' h
    | some w =>
      rw [hg] at h
      dsimp only [] at h
      by_cases ht : jsTruthyJ w = true
      · rw [if_pos ht] at h
        simp only [Prod.mk.injEq, Except.ok.injEq] at h
        rw [← h.1]
        exact redisGet_clean now st.cache id w hclean hg
      · rw [if_neg ht] at h
        exact getUserByIdFromStore_clean id now st v st' h
  · intro id data st out st' h
    unfold updateUser at h
    split at h
    · simp at h
    · split at h
      · simp at h
      · simp only [Prod.mk.injEq, Except.ok.injEq] at h
        rw [← h.1]
        exact fieldsClean_removeFields _

theorem c9_no_sensitive_fields_returned_witness :
    cacheClean stW.cache ∧
    valClean (.obj [("id", JVal.s "u9")]) = true ∧
    (login "alice" "Correct1!" bc0 now0 st0).1.isOk = true := by
  have hclean : cacheClean stW.cache := by
    intro e he _
    simp only [stW, List.mem_singleton] at he
    subst he
    decide
  refine ⟨hclean, ?_, rfl⟩
  exact c9_no_sensitive_fields_returned.2.2.2.1 "u9" now0 stW
    (.obj [("id", JVal.s "u9")]) stW hclean rfl
